import Mathlib

/-!
Verification of the `tarjm` command-line translation client
(`src/bin/tarjm.js`) against its natural-language specification.

The script is shallowly embedded as a pure Lean function.  All effects of
one invocation are made explicit:

* the configuration file (`~/.config/tarjm/config.json`) is a `ConfigFS`
  value (absent, unreadable-or-unparseable, or a parsed JSON object);
* `fs.writeFileSync` success/failure is the `writeOk` field of the `World`
  (the error swallowed by `writeConfig` carries `writeErrMsg`);
* the input file system is a function `String → FileState`;
* the single `fetch` to `http://tarjm:5000/translate` is answered by a
  `NetResult` oracle; `res.json()` failure and non-object bodies are
  represented in `Body`;
* `isMainModule()` is the `isMain : Bool` argument (the script compares
  resolved paths; we take its boolean outcome as an input);
* `process.exit(c)`, a normal `return v`, and a propagated `throw` are the
  three constructors of `Outcome`;
* every `console.error` line is collected in `errLog` (chalk colouring and
  `console.log` stdout rendering are display-only and not modelled; when
  `console.error` receives an object as an extra argument, only the string
  part of the line is recorded);
* `fs.mkdirSync` of the config directory (lines 95-97) has no observable
  effect on any behaviour treated here and is not modelled.

Argument parsing by `minimist` is, as in the specification, an external
collaborator producing a mapping from flag name to an (optional) string
value plus a positional-argument list; `ParsedArgs` is that mapping.
-/

namespace Tarjm

/-- JSON values as they occur in the configuration file and in the
translation server's response body: scalars only (the recognised keys,
`defaultLanguage` and `translatedText`, hold scalars; objects or arrays in
those positions are outside the behaviours treated here). -/
inductive JVal where
  | jstr (s : String)
  | jnum (n : Int)
  | jbool (b : Bool)
  | jnull
  deriving DecidableEq

/-- JavaScript truthiness of a `JVal`: the empty string, `0`, `false` and
`null` are falsy, everything else truthy. -/
def jvalTruthy : JVal → Bool
  | .jstr s => !s.isEmpty
  | .jnum n => n != 0
  | .jbool b => b
  | .jnull => false

/-- A parsed JSON object, as produced by `JSON.parse`: an association list
with (in practice) unique keys. -/
abbrev JObj := List (String × JVal)

/-- JavaScript property read `obj[k]` on a parsed JSON object: the first
binding of the key, if any (`undefined` is `none`). -/
def getKey : JObj → String → Option JVal
  | [], _ => none
  | (k', v) :: rest, k => if k' = k then some v else getKey rest k

/-- JavaScript property assignment `obj[k] = v` on a parsed JSON object:
replaces the binding of `k` in place, or appends it when absent. -/
def setKey : JObj → String → JVal → JObj
  | [], k, v => [(k, v)]
  | (k', v') :: rest, k, v =>
      if k' = k then (k, v) :: rest else (k', v') :: setKey rest k v

/-- JavaScript truthiness of an optional string flag value: a missing flag
(`undefined`) and the empty string are falsy. -/
def truthyS : Option String → Bool
  | none => false
  | some s => !s.isEmpty

/-- JavaScript `a || b` on optional string flag values (as in
`parsedArgs.d || parsedArgs.default`): `a` when truthy, otherwise `b`. -/
def jsOr (a b : Option String) : Option String :=
  if truthyS a then a else b

/-- The parsed command-line arguments, exactly the fields the script reads
from `minimist`'s result (lines 37-41): short and long flag values and the
positional token list `parsedArgs._`.  `defaultFlag` is `parsedArgs.default`.
Flag values are optional strings and the help flags booleans, following the
specification's data model for the Invocation Request. -/
structure ParsedArgs where
  d : Option String := none
  defaultFlag : Option String := none
  l : Option String := none
  language : Option String := none
  f : Option String := none
  file : Option String := none
  h : Bool := false
  help : Bool := false
  positional : List String := []

/-- State of the configuration file: absent, present but unreadable or not
valid JSON (`broken`, carrying the error message `JSON.parse` or the read
produced), or a parsed JSON object.  `JSON.parse ∘ JSON.stringify` is the
identity on `JObj`, so a successful write yields `parsed`. -/
inductive ConfigFS where
  | absent
  | broken (msg : String)
  | parsed (c : JObj)
  deriving DecidableEq

/-- The script's `readConfig` (lines 104-115): the parsed mapping, or the
empty mapping when the file is absent, unreadable or unparseable. -/
def readConfig : ConfigFS → JObj
  | .absent => []
  | .broken _ => []
  | .parsed c => c

/-- The `console.error` line `readConfig` emits (line 110): only a broken
file is logged; absence is silent. -/
def readConfigLog : ConfigFS → List String
  | .broken msg => ["Error reading config file: " ++ msg]
  | _ => []

/-- State of a path in the input file system: absent (`existsSync` false),
present but unreadable (`readFileSync` throws, with the error's message),
or readable with the given contents. -/
inductive FileState where
  | absent
  | unreadable (msg : String)
  | content (s : String)
  deriving DecidableEq

/-- Decoded response body: `res.json()` throws (`badJson`, with the error's
message), or yields data.  `json (some fields)` is a JSON object;
`json none` covers `null` and every non-object value, on all of which
`data && data.translatedText` takes the failure branch. -/
inductive Body where
  | badJson (msg : String)
  | json (data : Option JObj)
  deriving DecidableEq

/-- Result of the one `fetch`: a rejected promise (network-level failure,
with the error's message), or an HTTP response with status, status text
and body. -/
inductive NetResult where
  | transportErr (msg : String)
  | httpRes (status : Nat) (statusText : String) (body : Body)
  deriving DecidableEq

/-- The external world one invocation runs against. -/
structure World where
  /-- state of `~/.config/tarjm/config.json` before the run -/
  config : ConfigFS
  /-- does `fs.writeFileSync` of the config succeed -/
  writeOk : Bool
  /-- the error message when the config write fails -/
  writeErrMsg : String
  /-- the input file system, for the `-f` path -/
  fs : String → FileState
  /-- the translation server / network oracle -/
  net : NetResult

/-- One HTTP request as the script issues it (lines 180-195): URL, method,
header and the JSON body fields. -/
structure Request where
  url : String
  method : String
  contentType : String
  q : String
  source : String
  target : JVal
  format : String
  alternatives : Nat
  api_key : String
  deriving DecidableEq

/-- How an invocation ends: `process.exit code`, a normal return (in
top-level mode the process then ends with status 0), or a thrown error
propagating to the embedding caller with the given message. -/
inductive Outcome where
  | exit (code : Nat)
  | ret (v : Option JVal)
  | raise (msg : String)
  deriving DecidableEq

/-- Whether the outcome terminated the process via `process.exit`. -/
def Outcome.isExit : Outcome → Bool
  | .exit _ => true
  | _ => false

/-- Everything observable about one invocation. -/
structure RunResult where
  outcome : Outcome
  /-- the requests sent to the translation endpoint, in order -/
  requests : List Request
  /-- the mapping passed to `writeConfig`, when it was called -/
  written : Option JObj
  /-- state of the configuration file after the run -/
  finalConfig : ConfigFS
  /-- the `console.error` lines, in order -/
  errLog : List String
  deriving DecidableEq

/-- `parsedArgs._.join(' ')` (line 87). -/
def joinSpace (l : List String) : String := String.intercalate " " l

/-- JavaScript `String.prototype.trim()`: drops leading and trailing
whitespace.  Written by structural recursion over the character list so it
evaluates inside the kernel (the exact whitespace classes of JS and
`Char.isWhitespace` agree on the inputs treated here). -/
def jsTrim (s : String) : String :=
  ⟨((s.data.dropWhile Char.isWhitespace).reverse.dropWhile Char.isWhitespace).reverse⟩

/-- The configuration-file state at target-language-resolution time: when a
truthy default-language flag was supplied, `writeConfig` has already run
(lines 130-134), so a successful write leaves the updated mapping on disk
before line 150 re-reads it; a failed write leaves the file unchanged. -/
def effectiveConfig (a : ParsedArgs) (w : World) : ConfigFS :=
  let sdl := jsOr a.d a.defaultFlag
  if truthyS sdl then
    if w.writeOk then
      .parsed (setKey (readConfig w.config) "defaultLanguage" (.jstr (sdl.getD "")))
    else w.config
  else w.config

/-- Target-language resolution (lines 144-154): a truthy `-l` (`--language`)
value wins; otherwise the config file is read and a truthy
`defaultLanguage` value is used; otherwise the literal `"en"`. -/
def resolveTarget (specified : Option String) (cfs : ConfigFS) : JVal :=
  if truthyS specified then .jstr (specified.getD "")
  else
    match getKey (readConfig cfs) "defaultLanguage" with
    | some v => if jvalTruthy v then v else .jstr "en"
    | none => .jstr "en"

/-- Result of resolving the text to translate. -/
inductive TextOut where
  | ok (text : String)
  | fileNotFound (p : String)
  | readError (msg : String)
  deriving DecidableEq

/-- Text-source resolution (lines 156-170): with a truthy file-path flag the
file's contents replace the positional text, failing when the path does not
exist or the read throws; otherwise the positional text is used verbatim. -/
def resolveText (filePath : Option String) (positionalText : String)
    (fs : String → FileState) : TextOut :=
  if truthyS filePath then
    match fs (filePath.getD "") with
    | .absent => .fileNotFound (filePath.getD "")
    | .unreadable msg => .readError msg
    | .content s => .ok s
  else .ok positionalText

/-- The request the script builds and posts (lines 180-195). -/
def mkRequest (text : String) (target : JVal) : Request :=
  { url := "http://tarjm:5000/translate"
    method := "POST"
    contentType := "application/json"
    q := text
    source := "auto"
    target := target
    format := "text"
    alternatives := 3
    api_key := "" }

/-- Outcome and error lines of the `data && data.translatedText` failure
branch (lines 213-217): logged, then exit 1 in top-level mode or
`Error('Translation failed.')` thrown, re-caught by the inner catch
(line 218) and the outer catch (line 224), each logging, and re-thrown. -/
def rejectOut (isMain : Bool) : Outcome × List String :=
  if isMain then (.exit 1, ["Translation failed. Response data:"])
  else
    (.raise "Translation failed.",
     ["Translation failed. Response data:",
      "Error during translation request: Translation failed.",
      "An unexpected error occurred: Translation failed."])

/-- The fetch and response handling (lines 189-223).  `res.ok` is
`200 ≤ status < 300`.  Every thrown error passes the enclosing catch
blocks, which log and (in embedded mode) re-throw; in top-level mode every
failure ends with `process.exit(1)`. -/
def translatePhase (isMain : Bool) (net : NetResult) : Outcome × List String :=
  match net with
  | .transportErr msg =>
      if isMain then (.exit 1, ["Error during translation request: " ++ msg])
      else
        (.raise msg,
         ["Error during translation request: " ++ msg,
          "An unexpected error occurred: " ++ msg])
  | .httpRes status statusText body =>
      if !(200 ≤ status && status < 300) then
        let line := "Translation server responded with status " ++ toString status
          ++ ": " ++ statusText
        if isMain then (.exit 1, [line])
        else
          let m := "Server error: " ++ toString status
          (.raise m,
           [line, "Error during translation request: " ++ m,
            "An unexpected error occurred: " ++ m])
      else
        match body with
        | .badJson msg =>
            if isMain then (.exit 1, ["Error during translation request: " ++ msg])
            else
              (.raise msg,
               ["Error during translation request: " ++ msg,
                "An unexpected error occurred: " ++ msg])
        | .json data =>
            match data with
            | some fields =>
                match getKey fields "translatedText" with
                | some v =>
                    if jvalTruthy v then (.ret (some v), [])
                    else rejectOut isMain
                | none => rejectOut isMain
            | none => rejectOut isMain

/-- The whole `tarjm` entry point (lines 34-230), as a function of the
execution mode (`isMain` is `isMainModule()`), the parsed arguments and the
external world. -/
def tarjm (isMain : Bool) (a : ParsedArgs) (w : World) : RunResult :=
  let setDefaultLanguage := jsOr a.d a.defaultFlag
  let specifiedLanguage := jsOr a.l a.language
  let filePath := jsOr a.f a.file
  let showHelp := a.h || a.help
  if showHelp then
    -- lines 44-84: print usage, then return (embedded) or exit 0
    { outcome := if isMain then .exit 0 else .ret none
      requests := [], written := none, finalConfig := w.config, errLog := [] }
  else
    let textToTranslate := joinSpace a.positional
    -- lines 130-142: persist the default language when the flag is truthy
    let written : Option JObj :=
      if truthyS setDefaultLanguage then
        some (setKey (readConfig w.config) "defaultLanguage"
          (.jstr (setDefaultLanguage.getD "")))
      else none
    let log0 : List String :=
      if truthyS setDefaultLanguage then
        readConfigLog w.config
          ++ (if w.writeOk then [] else ["Error writing config file: " ++ w.writeErrMsg])
      else []
    let cfg1 := effectiveConfig a w
    if truthyS setDefaultLanguage && textToTranslate.isEmpty && !truthyS filePath then
      -- lines 138-141: set-default-only, no text and no file
      { outcome := if isMain then .exit 0 else .ret none
        requests := [], written := written, finalConfig := cfg1, errLog := log0 }
    else
      -- lines 144-154: the config file is re-read unless -l (--language) is truthy
      let log1 := log0 ++ (if truthyS specifiedLanguage then [] else readConfigLog cfg1)
      let target := resolveTarget specifiedLanguage cfg1
      match resolveText filePath textToTranslate w.fs with
      | .fileNotFound p =>
          -- lines 159-163; embedded: the throw passes the catches at 165 and 224
          { outcome := if isMain then .exit 1 else .raise ("File not found: " ++ p)
            requests := [], written := written, finalConfig := cfg1
            errLog := log1 ++
              (if isMain then ["File not found: " ++ p]
               else ["File not found: " ++ p,
                     "Error reading file: File not found: " ++ p,
                     "An unexpected error occurred: File not found: " ++ p]) }
      | .readError msg =>
          -- lines 164-169; embedded: the original error is re-thrown twice
          { outcome := if isMain then .exit 1 else .raise msg
            requests := [], written := written, finalConfig := cfg1
            errLog := log1 ++
              (if isMain then ["Error reading file: " ++ msg]
               else ["Error reading file: " ++ msg,
                     "An unexpected error occurred: " ++ msg]) }
      | .ok text =>
          if (jsTrim text).isEmpty then
            -- lines 172-177
            { outcome := if isMain then .exit 1 else .raise "No text provided."
              requests := [], written := written, finalConfig := cfg1
              errLog := log1 ++
                (if isMain then ["Please provide text to translate."]
                 else ["Please provide text to translate.",
                       "An unexpected error occurred: No text provided."]) }
          else
            -- lines 179-223: build the body and perform the single POST
            let req := mkRequest text target
            let res := translatePhase isMain w.net
            { outcome := res.1, requests := [req], written := written
              finalConfig := cfg1, errLog := log1 ++ res.2 }

/-! ### Helper lemmas -/

lemma isEmpty_false {s : String} (h : s ≠ "") : s.isEmpty = false := by
  rcases hs : s.isEmpty with _ | _
  · rfl
  · exact absurd ((String.isEmpty_iff s).1 hs) h

lemma truthyS_some {s : String} (h : s ≠ "") : truthyS (some s) = true := by
  simp [truthyS, isEmpty_false h]

lemma getKey_setKey_self (c : JObj) (k : String) (v : JVal) :
    getKey (setKey c k v) k = some v := by
  induction c with
  | nil => simp [setKey, getKey]
  | cons e rest ih =>
      by_cases h : e.1 = k <;> simp [setKey, getKey, h, ih]

lemma getKey_setKey_ne (c : JObj) {k k' : String} (v : JVal) (h : k' ≠ k) :
    getKey (setKey c k v) k' = getKey c k' := by
  induction c with
  | nil => simp [setKey, getKey, h, Ne.symm h]
  | cons e rest ih =>
      by_cases he : e.1 = k
      · simp [setKey, getKey, he, h, Ne.symm h]
      · by_cases he' : e.1 = k' <;> simp [setKey, getKey, he, he', h, Ne.symm h, ih]

lemma filter_setKey (c : JObj) (k : String) (v : JVal) :
    (setKey c k v).filter (fun e => e.1 != k) = c.filter (fun e => e.1 != k) := by
  induction c with
  | nil => simp [setKey]
  | cons e rest ih =>
      by_cases he : e.1 = k <;> simp [setKey, he, ih]

lemma jsTrim_empty : jsTrim "" = "" := rfl

lemma jsTrim_ne_imp_ne {t : String} (h : jsTrim t ≠ "") : t ≠ "" := by
  intro he
  exact h (he ▸ jsTrim_empty)

/-- The `written` field only records the set-default phase (lines 130-134):
it does not depend on which branch the rest of the run takes. -/
lemma tarjm_written_eq (m : Bool) (a : ParsedArgs) (w : World)
    (hh : a.h = false) (hhelp : a.help = false) :
    (tarjm m a w).written =
      (if truthyS (jsOr a.d a.defaultFlag) then
        some (setKey (readConfig w.config) "defaultLanguage"
          (.jstr ((jsOr a.d a.defaultFlag).getD "")))
       else none) := by
  simp only [tarjm, hh, hhelp, Bool.or_self, Bool.false_eq_true, if_false]
  split
  · rfl
  · split
    · rfl
    · rfl
    · split <;> rfl

/-- The configuration file after any non-help run is `effectiveConfig`. -/
lemma tarjm_finalConfig_eq (m : Bool) (a : ParsedArgs) (w : World)
    (hh : a.h = false) (hhelp : a.help = false) :
    (tarjm m a w).finalConfig = effectiveConfig a w := by
  simp only [tarjm, hh, hhelp, Bool.or_self, Bool.false_eq_true, if_false]
  split
  · rfl
  · split
    · rfl
    · rfl
    · split <;> rfl

/-- Every run issues either no request or exactly the one request built from
the resolved text and the resolved target language. -/
lemma tarjm_requests_shape (m : Bool) (a : ParsedArgs) (w : World) :
    (tarjm m a w).requests = [] ∨
    ∃ t, resolveText (jsOr a.f a.file) (joinSpace a.positional) w.fs = .ok t ∧
      (tarjm m a w).requests =
        [mkRequest t (resolveTarget (jsOr a.l a.language) (effectiveConfig a w))] := by
  simp only [tarjm]
  split
  · left; rfl
  · split
    · left; rfl
    · split
      · left; rfl
      · left; rfl
      · rename_i t heq
        split
        · left; rfl
        · right; exact ⟨t, heq, rfl⟩

/-- The embedded-mode translate phase never calls `process.exit`. -/
lemma translatePhase_not_exit (net : NetResult) :
    (translatePhase false net).1.isExit = false := by
  rcases net with m | ⟨s, st, b⟩
  · rfl
  · by_cases hok : (200 ≤ s && s < 300) = true
    · rcases b with m | d
      · simp [translatePhase, hok, Outcome.isExit]
      · rcases d with _ | fields
        · simp [translatePhase, hok, rejectOut, Outcome.isExit]
        · rcases hg : getKey fields "translatedText" with _ | tv
          · simp [translatePhase, hok, hg, rejectOut, Outcome.isExit]
          · by_cases htv : jvalTruthy tv = true <;>
              simp [translatePhase, hok, hg, htv, rejectOut, Outcome.isExit]
    · simp [translatePhase, hok, Outcome.isExit]

/-- A normal return of the translate phase in top-level mode is the same
return in embedded mode (the success branch, lines 209-212, is shared). -/
lemma translatePhase_ret_mode (net : NetResult) (v : Option JVal) :
    (translatePhase true net).1 = .ret v → (translatePhase false net).1 = .ret v := by
  rcases net with m | ⟨s, st, b⟩
  · simp [translatePhase]
  · by_cases hok : (200 ≤ s && s < 300) = true
    · rcases b with m | d
      · simp [translatePhase, hok]
      · rcases d with _ | fields
        · simp [translatePhase, hok, rejectOut]
        · rcases hg : getKey fields "translatedText" with _ | tv
          · simp [translatePhase, hok, hg, rejectOut]
          · by_cases htv : jvalTruthy tv = true <;>
              simp [translatePhase, hok, hg, htv, rejectOut]
    · simp [translatePhase, hok]

/-- Target resolution only looks at the parsed mapping. -/
lemma resolveTarget_congr (s : Option String) {c1 c2 : ConfigFS}
    (h : readConfig c1 = readConfig c2) :
    resolveTarget s c1 = resolveTarget s c2 := by
  simp [resolveTarget, h]

/-- Two initial config-file states with the same parsed mapping yield the
same mapping after the set-default phase. -/
lemma readConfig_effectiveConfig_congr (a : ParsedArgs) (w : World) {c1 c2 : ConfigFS}
    (h : readConfig c1 = readConfig c2) :
    readConfig (effectiveConfig a { w with config := c1 })
      = readConfig (effectiveConfig a { w with config := c2 }) := by
  by_cases h1 : truthyS (jsOr a.d a.defaultFlag) = true <;>
    by_cases h2 : w.writeOk = true <;>
    simp [effectiveConfig, h1, h2] <;>
    rw [h]

/-! ### Claim C1 -/

/-- Concrete invocation with no flags and no text. -/
def argsNoText : ParsedArgs := {}

/-- Concrete world whose network would fail (never reached here). -/
def worldNoText : World :=
  { config := .absent, writeOk := true, writeErrMsg := ""
    fs := fun _ => .absent, net := .transportErr "fetch failed" }

/-- C1, counterexample: on the missing-text failure path the embedded mode
raises an error whose message is `No text provided.`, while the terminating
mode's (only) diagnostic message is `Please provide text to translate.` —
the raised error does not carry the same message as the terminating mode. -/
theorem C1_counterexample_message :
    (tarjm false argsNoText worldNoText).outcome = .raise "No text provided." ∧
    (tarjm true argsNoText worldNoText).outcome = .exit 1 ∧
    (tarjm true argsNoText worldNoText).errLog
      = ["Please provide text to translate."] ∧
    "No text provided." ≠ "Please provide text to translate." := by
  refine ⟨by decide, by decide, by decide, by decide⟩

/-- C1 (amended): in embedded mode the process is never terminated — every
outcome is a normal return or a raised error — and any value the
terminating mode returns (the translated text on the success path) is
returned identically to the embedded caller; failure paths raise errors
whose path-specific messages may differ from the terminating mode's
printed diagnostics. -/
theorem C1_embedded_never_terminates (a : ParsedArgs) (w : World) :
    (tarjm false a w).outcome.isExit = false ∧
    ∀ v, (tarjm true a w).outcome = .ret v → (tarjm false a w).outcome = .ret v := by
  cases hH : (a.h || a.help) with
  | true =>
      constructor
      · simp [tarjm, hH, Outcome.isExit]
      · intro v h
        simp [tarjm, hH] at h
  | false =>
      cases hS : (truthyS (jsOr a.d a.defaultFlag) && (joinSpace a.positional).isEmpty
          && !truthyS (jsOr a.f a.file)) with
      | true =>
          constructor
          · simp [tarjm, hH, hS, Outcome.isExit]
          · intro v h
            simp [tarjm, hH, hS] at h
      | false =>
          rcases hres : resolveText (jsOr a.f a.file) (joinSpace a.positional) w.fs with
            t | p | msg
          · by_cases htr : (jsTrim t).isEmpty = true
            · constructor
              · simp [tarjm, hH, hS, hres, htr, Outcome.isExit]
              · intro v h
                simp [tarjm, hH, hS, hres, htr] at h
            · constructor
              · simpa [tarjm, hH, hS, hres, htr] using translatePhase_not_exit w.net
              · intro v h
                simp [tarjm, hH, hS, hres, htr] at h ⊢
                exact translatePhase_ret_mode w.net v h
          · constructor
            · simp [tarjm, hH, hS, hres, Outcome.isExit]
            · intro v h
              simp [tarjm, hH, hS, hres] at h
          · constructor
            · simp [tarjm, hH, hS, hres, Outcome.isExit]
            · intro v h
              simp [tarjm, hH, hS, hres] at h

/-- Concrete successful translation of `Hello World`. -/
def argsHello : ParsedArgs := { positional := ["Hello", "World"] }

/-- Concrete world where the server answers with a translation. -/
def worldHello : World :=
  { config := .absent, writeOk := true, writeErrMsg := ""
    fs := fun _ => .absent
    net := .httpRes 200 "OK" (.json (some [("translatedText", .jstr "Hola Mundo")])) }

/-- C1 witness: a concrete embedded run neither exits nor loses the value
the terminating mode computes. -/
theorem C1_witness :
    (tarjm false argsHello worldHello).outcome.isExit = false ∧
    (tarjm false argsHello worldHello).outcome = .ret (some (.jstr "Hola Mundo")) :=
  ⟨(C1_embedded_never_terminates argsHello worldHello).1,
   (C1_embedded_never_terminates argsHello worldHello).2
     (some (.jstr "Hola Mundo")) (by decide)⟩

/-! ### Claim C2 -/

/-- Concrete invocation translating `hi` with no language flag. -/
def argsHi : ParsedArgs := { positional := ["hi"] }

/-- Concrete world whose config has a `defaultLanguage` key holding the
empty string (valid JSON, falsy value). -/
def worldFalsyDefault : World :=
  { config := .parsed [("defaultLanguage", .jstr "")], writeOk := true
    writeErrMsg := "", fs := fun _ => .absent
    net := .httpRes 200 "OK" (.json (some [("translatedText", .jstr "x")])) }

/-- C2, counterexample: the loaded configuration has a `defaultLanguage`
key (holding `""`), no language flag is given, yet the request's target is
the literal `"en"`, not that key's value — the check at line 151 is a
truthiness test, not a key-presence test. -/
theorem C2_counterexample_falsy_default :
    getKey (readConfig worldFalsyDefault.config) "defaultLanguage"
      = some (.jstr "") ∧
    jsOr argsHi.l argsHi.language = none ∧
    (tarjm true argsHi worldFalsyDefault).requests.map Request.target
      = [.jstr "en"] ∧
    (JVal.jstr "en") ≠ .jstr "" := by
  refine ⟨by decide, by decide, by decide, by decide⟩

/-- C2 (amended): three-tier precedence under JavaScript truthiness — a
truthy (nonempty) per-call language flag wins unconditionally; otherwise a
truthy `defaultLanguage` value in the configuration as loaded after the
set-default phase is used; otherwise (key absent — and, per the
counterexample, also when its value is falsy) the literal `"en"`. -/
theorem C2_language_precedence (m : Bool) (a : ParsedArgs) (w : World) (r : Request)
    (hreq : (tarjm m a w).requests = [r]) :
    (∀ s, jsOr a.l a.language = some s → s ≠ "" → r.target = .jstr s) ∧
    (truthyS (jsOr a.l a.language) = false →
      (∀ v, getKey (readConfig (effectiveConfig a w)) "defaultLanguage" = some v →
        jvalTruthy v = true → r.target = v) ∧
      (getKey (readConfig (effectiveConfig a w)) "defaultLanguage" = none →
        r.target = .jstr "en")) := by
  rcases tarjm_requests_shape m a w with hnil | ⟨t, hres, hsh⟩
  · rw [hnil] at hreq; cases hreq
  · rw [hsh] at hreq
    have hr : r = mkRequest t (resolveTarget (jsOr a.l a.language) (effectiveConfig a w)) := by
      injection hreq with h1 _
      exact h1.symm
    subst hr
    constructor
    · intro s hs hs'
      simp [mkRequest, resolveTarget, hs, truthyS_some hs']
    · intro hl
      constructor
      · intro v hv htv
        simp [mkRequest, resolveTarget, hl, hv, htv]
      · intro hv
        simp [mkRequest, resolveTarget, hl, hv]

/-- Concrete invocation with an explicit language flag. -/
def argsHiEs : ParsedArgs := { l := some "es", positional := ["hi"] }

/-- Concrete world with a persisted default `fr`. -/
def worldFr : World :=
  { config := .parsed [("defaultLanguage", .jstr "fr")], writeOk := true
    writeErrMsg := "", fs := fun _ => .absent
    net := .httpRes 200 "OK" (.json (some [("translatedText", .jstr "x")])) }

/-- C2 witness: an explicit `-l es` overrides the persisted `fr`, and
without the flag the persisted `fr` is used. -/
theorem C2_witness :
    (mkRequest "hi" (.jstr "es")).target = .jstr "es" ∧
    (mkRequest "hi" (.jstr "fr")).target = .jstr "fr" :=
  ⟨(C2_language_precedence true argsHiEs worldFr
      (mkRequest "hi" (.jstr "es")) (by decide)).1 "es" (by decide) (by decide),
   ((C2_language_precedence true argsHi worldFr
      (mkRequest "hi" (.jstr "fr")) (by decide)).2 (by decide)).1
     (.jstr "fr") (by decide) (by decide)⟩

/-! ### Claim C3 -/

/-- Concrete invocation `-d fr hello`. -/
def argsDFrHello : ParsedArgs := { d := some "fr", positional := ["hello"] }

/-- Concrete world where the config file is absent and the write fails. -/
def worldWriteFails : World :=
  { config := .absent, writeOk := false, writeErrMsg := "EACCES"
    fs := fun _ => .absent
    net := .httpRes 200 "OK" (.json (some [("translatedText", .jstr "x")])) }

/-- C3, counterexample: `-d fr hello` with a failed config write sends
target `"en"` (the fallback re-read from the unchanged, absent config
file), not the newly supplied default `"fr"`. -/
theorem C3_counterexample_write_failure :
    jsOr argsDFrHello.d argsDFrHello.defaultFlag = some "fr" ∧
    worldWriteFails.writeOk = false ∧
    (tarjm true argsDFrHello worldWriteFails).errLog
      = ["Error writing config file: EACCES"] ∧
    (tarjm true argsDFrHello worldWriteFails).requests.map Request.target
      = [.jstr "en"] ∧
    (JVal.jstr "en") ≠ .jstr "fr" := by
  refine ⟨by decide, by decide, by decide, by decide, by decide⟩

/-- C3 (amended): when the config write fails the translation still
proceeds, but the target language is resolved by re-reading the
configuration file, which the failed write left unchanged — so the
pre-existing truthy persisted default (or `"en"` when none) is sent, not
the newly supplied in-memory default. -/
theorem C3_failed_write_uses_reread_config (m : Bool) (a : ParsedArgs) (w : World)
    (dl t : String)
    (hh : a.h = false) (hhelp : a.help = false)
    (hd : jsOr a.d a.defaultFlag = some dl) (hdl : dl ≠ "")
    (hl : truthyS (jsOr a.l a.language) = false)
    (hwf : w.writeOk = false)
    (hres : resolveText (jsOr a.f a.file) (joinSpace a.positional) w.fs = .ok t)
    (htrim : jsTrim t ≠ "") :
    ∃ r, (tarjm m a w).requests = [r] ∧ r.q = t ∧
      r.target = resolveTarget (jsOr a.l a.language) w.config ∧
      (∀ v, getKey (readConfig w.config) "defaultLanguage" = some v →
        jvalTruthy v = true → r.target = v) ∧
      (getKey (readConfig w.config) "defaultLanguage" = none →
        r.target = .jstr "en") ∧
      (tarjm m a w).finalConfig = w.config := by
  have hT : truthyS (jsOr a.d a.defaultFlag) = true := hd ▸ truthyS_some hdl
  have heff : effectiveConfig a w = w.config := by
    simp [effectiveConfig, hT, hwf]
  have hcond : (truthyS (jsOr a.d a.defaultFlag) && (joinSpace a.positional).isEmpty
      && !truthyS (jsOr a.f a.file)) = false := by
    rcases h3 : truthyS (jsOr a.f a.file) with _ | _
    · have ht' : t = joinSpace a.positional := by
        have hx := hres
        simp [resolveText, h3] at hx
        exact hx.symm
      have : (joinSpace a.positional).isEmpty = false := by
        rw [← ht']
        exact isEmpty_false (jsTrim_ne_imp_ne htrim)
      simp [this]
    · simp [h3]
  have htr : (jsTrim t).isEmpty = false := isEmpty_false htrim
  refine ⟨mkRequest t (resolveTarget (jsOr a.l a.language) w.config),
    ?_, rfl, rfl, ?_, ?_, ?_⟩
  · simp [tarjm, hh, hhelp, hcond, hres, htr, heff]
  · intro v hv htv
    simp [mkRequest, resolveTarget, hl, hv, htv]
  · intro hv
    simp [mkRequest, resolveTarget, hl, hv]
  · rw [tarjm_finalConfig_eq m a w hh hhelp, heff]

/-- Concrete world with a stale persisted default `de` and a failing write. -/
def worldStaleDe : World :=
  { config := .parsed [("defaultLanguage", .jstr "de")], writeOk := false
    writeErrMsg := "EACCES", fs := fun _ => .absent
    net := .httpRes 200 "OK" (.json (some [("translatedText", .jstr "x")])) }

/-- C3 witness: `-d fr hello` with a failing write over a stale default
`de` sends `de`, and the config file is untouched. -/
theorem C3_witness :
    ∃ r, (tarjm true argsDFrHello worldStaleDe).requests = [r] ∧ r.q = "hello" ∧
      r.target = resolveTarget (jsOr argsDFrHello.l argsDFrHello.language)
        worldStaleDe.config ∧
      (∀ v, getKey (readConfig worldStaleDe.config) "defaultLanguage" = some v →
        jvalTruthy v = true → r.target = v) ∧
      (getKey (readConfig worldStaleDe.config) "defaultLanguage" = none →
        r.target = .jstr "en") ∧
      (tarjm true argsDFrHello worldStaleDe).finalConfig = worldStaleDe.config :=
  C3_failed_write_uses_reread_config true argsDFrHello worldStaleDe "fr" "hello"
    (by decide) (by decide) (by decide) (by decide) (by decide) (by decide)
    (by decide) (by decide)

/-! ### Claim C4 -/

/-- C4: a truthy default-language flag with no positional text and no file
path persists the default (the mapping handed to `writeConfig` is the
loaded config updated at `defaultLanguage`; on a successful write it is on
disk), ends successfully — exit 0 in terminating mode, a return with no
value in embedded mode — and no network request is ever issued. -/
theorem C4_set_default_only (m : Bool) (a : ParsedArgs) (w : World) (dl : String)
    (hh : a.h = false) (hhelp : a.help = false)
    (hd : jsOr a.d a.defaultFlag = some dl) (hdl : dl ≠ "")
    (htext : joinSpace a.positional = "")
    (hfile : truthyS (jsOr a.f a.file) = false) :
    (tarjm m a w).requests = [] ∧
    (tarjm m a w).written =
      some (setKey (readConfig w.config) "defaultLanguage" (.jstr dl)) ∧
    (tarjm m a w).outcome = (if m then .exit 0 else .ret none) ∧
    (w.writeOk = true →
      (tarjm m a w).finalConfig =
        .parsed (setKey (readConfig w.config) "defaultLanguage" (.jstr dl))) := by
  refine ⟨?_, ?_, ?_, ?_⟩ <;>
    simp [tarjm, hh, hhelp, hd, truthyS_some hdl, htext, hfile, effectiveConfig,
      String.isEmpty_iff]
  intro hw
  simp [hw]

/-- Concrete invocation `-d fr` with nothing else. -/
def argsDFr : ParsedArgs := { d := some "fr" }

/-- Concrete world with an empty (absent) config. -/
def worldPlain : World :=
  { config := .absent, writeOk := true, writeErrMsg := ""
    fs := fun _ => .absent, net := .transportErr "unreached" }

/-- C4 witness: `tarjm -d fr` exits 0 after persisting
`defaultLanguage = fr`, with no request. -/
theorem C4_witness :
    (tarjm true argsDFr worldPlain).requests = [] ∧
    (tarjm true argsDFr worldPlain).written =
      some (setKey (readConfig worldPlain.config) "defaultLanguage" (.jstr "fr")) ∧
    (tarjm true argsDFr worldPlain).outcome = (if true then .exit 0 else .ret none) ∧
    (worldPlain.writeOk = true →
      (tarjm true argsDFr worldPlain).finalConfig =
        .parsed (setKey (readConfig worldPlain.config) "defaultLanguage" (.jstr "fr"))) :=
  C4_set_default_only true argsDFr worldPlain "fr"
    (by decide) (by decide) (by decide) (by decide) (by decide) (by decide)

/-! ### Claim C5 -/

/-- C5: a truthy file-path flag naming a path that does not exist fails
with the file-not-found error — exit 1 in terminating mode, a raised error
carrying `File not found: <path>` in embedded mode — and no network
request is ever issued. -/
theorem C5_file_not_found (m : Bool) (a : ParsedArgs) (w : World) (p : String)
    (hh : a.h = false) (hhelp : a.help = false)
    (hf : jsOr a.f a.file = some p) (hp : p ≠ "")
    (habs : w.fs p = .absent) :
    (tarjm m a w).requests = [] ∧
    (tarjm m a w).outcome
      = (if m then .exit 1 else .raise ("File not found: " ++ p)) := by
  constructor <;>
    simp [tarjm, hh, hhelp, hf, truthyS_some hp, resolveText, habs]

/-- Concrete invocation `-f /nope`. -/
def argsFNope : ParsedArgs := { f := some "/nope" }

/-- C5 witness: the embedded run raises `File not found: /nope` with no
request issued. -/
theorem C5_witness :
    (tarjm false argsFNope worldPlain).requests = [] ∧
    (tarjm false argsFNope worldPlain).outcome
      = (if false then .exit 1 else .raise ("File not found: " ++ "/nope")) :=
  C5_file_not_found false argsFNope worldPlain "/nope"
    (by decide) (by decide) (by decide) (by decide) (by decide)

/-! ### Claim C6 -/

/-- C6: when the resolved text (positional tokens joined with spaces, or
the file contents when a truthy file path is given) is empty after
trimming, and the invocation is not help and not a pure set-default (which
per C4 exits successfully before text resolution), it fails with the
no-input-text error — exit 1 in terminating mode, a raised error in
embedded mode — and no network request is issued; whitespace-only input in
particular fails. -/
theorem C6_no_input_text (m : Bool) (a : ParsedArgs) (w : World) (t : String)
    (hh : a.h = false) (hhelp : a.help = false)
    (hres : resolveText (jsOr a.f a.file) (joinSpace a.positional) w.fs = .ok t)
    (htrim : jsTrim t = "")
    (hnsdo : ¬(truthyS (jsOr a.d a.defaultFlag) = true ∧
               joinSpace a.positional = "" ∧
               truthyS (jsOr a.f a.file) = false)) :
    (tarjm m a w).requests = [] ∧
    (tarjm m a w).outcome = (if m then .exit 1 else .raise "No text provided.") := by
  have hcond : (truthyS (jsOr a.d a.defaultFlag) && (joinSpace a.positional).isEmpty
      && !truthyS (jsOr a.f a.file)) = false := by
    rcases h1 : truthyS (jsOr a.d a.defaultFlag) <;>
      rcases h2 : (joinSpace a.positional).isEmpty <;>
      rcases h3 : truthyS (jsOr a.f a.file) <;>
      simp_all [String.isEmpty_iff]
  constructor <;>
    simp [tarjm, hh, hhelp, hcond, hres, htrim, String.isEmpty_iff]

/-- Concrete invocation with whitespace-only positional text. -/
def argsBlank : ParsedArgs := { positional := ["  "] }

/-- C6 witness: whitespace-only input raises `No text provided.` in
embedded mode, with no request issued. -/
theorem C6_witness :
    (tarjm false argsBlank worldPlain).requests = [] ∧
    (tarjm false argsBlank worldPlain).outcome
      = (if false then .exit 1 else .raise "No text provided.") :=
  C6_no_input_text false argsBlank worldPlain "  "
    (by decide) (by decide) (by decide) (by decide) (by decide)

/-! ### Claim C7 -/

/-- C7: loading the configuration never fails — `readConfig` is a total
function returning the empty mapping both when the file is absent and when
it is present but unreadable or unparseable (the parse failure is logged
only) — and a run over a broken config file computes the same outcome,
same requests and same persisted mapping as a run over an absent one: the
invocation proceeds as if no default language were set. -/
theorem C7_config_load_never_fails :
    (∀ msg, readConfig (.broken msg) = [] ∧ readConfig .absent = []) ∧
    ∀ (m : Bool) (a : ParsedArgs) (w : World) (msg : String),
      (tarjm m a { w with config := .broken msg }).outcome
          = (tarjm m a { w with config := .absent }).outcome ∧
      (tarjm m a { w with config := .broken msg }).requests
          = (tarjm m a { w with config := .absent }).requests ∧
      (tarjm m a { w with config := .broken msg }).written
          = (tarjm m a { w with config := .absent }).written := by
  refine ⟨fun msg => ⟨rfl, rfl⟩, ?_⟩
  intro m a w msg
  have hcfg : readConfig (.broken msg) = readConfig .absent := rfl
  have htgt : resolveTarget (jsOr a.l a.language)
        (effectiveConfig a { w with config := .broken msg })
      = resolveTarget (jsOr a.l a.language)
        (effectiveConfig a { w with config := .absent }) :=
    resolveTarget_congr _ (readConfig_effectiveConfig_congr a w hcfg)
  cases hH : (a.h || a.help) with
  | true => refine ⟨?_, ?_, ?_⟩ <;> simp [tarjm, hH]
  | false =>
      cases hS : (truthyS (jsOr a.d a.defaultFlag) && (joinSpace a.positional).isEmpty
          && !truthyS (jsOr a.f a.file)) with
      | true => refine ⟨?_, ?_, ?_⟩ <;> simp [tarjm, hH, hS, readConfig]
      | false =>
          rcases hres : resolveText (jsOr a.f a.file) (joinSpace a.positional) w.fs with
            t | p | msg'
          · by_cases htr : (jsTrim t).isEmpty = true
            · refine ⟨?_, ?_, ?_⟩ <;> simp [tarjm, hH, hS, hres, htr, readConfig]
            · refine ⟨?_, ?_, ?_⟩ <;>
                simp [tarjm, hH, hS, hres, htr, readConfig, htgt]
          · refine ⟨?_, ?_, ?_⟩ <;> simp [tarjm, hH, hS, hres, readConfig]
          · refine ⟨?_, ?_, ?_⟩ <;> simp [tarjm, hH, hS, hres, readConfig]

/-! ### Claim C8 -/

/-- C8: when a truthy default-language flag is supplied, the mapping
written back is the loaded configuration with only the `defaultLanguage`
binding changed: every other binding is preserved verbatim (same list of
non-`defaultLanguage` entries, same lookups). -/
theorem C8_extra_keys_preserved (m : Bool) (a : ParsedArgs) (w : World) (dl : String)
    (hh : a.h = false) (hhelp : a.help = false)
    (hd : jsOr a.d a.defaultFlag = some dl) (hdl : dl ≠ "") :
    ∃ c', (tarjm m a w).written = some c' ∧
      getKey c' "defaultLanguage" = some (.jstr dl) ∧
      c'.filter (fun e => e.1 != "defaultLanguage")
        = (readConfig w.config).filter (fun e => e.1 != "defaultLanguage") ∧
      ∀ k, k ≠ "defaultLanguage" → getKey c' k = getKey (readConfig w.config) k := by
  refine ⟨setKey (readConfig w.config) "defaultLanguage" (.jstr dl), ?_,
    getKey_setKey_self _ _ _, filter_setKey _ _ _,
    fun k hk => getKey_setKey_ne _ _ hk⟩
  rw [tarjm_written_eq m a w hh hhelp]
  simp [hd, truthyS_some hdl]

/-- Concrete world whose config carries an extra key. -/
def worldExtraKeys : World :=
  { config := .parsed [("theme", .jstr "dark"), ("defaultLanguage", .jstr "de")]
    writeOk := true, writeErrMsg := ""
    fs := fun _ => .absent, net := .transportErr "unreached" }

/-- C8 witness: setting the default over a config with an extra `theme`
key preserves that key verbatim. -/
theorem C8_witness :
    ∃ c', (tarjm true argsDFr worldExtraKeys).written = some c' ∧
      getKey c' "defaultLanguage" = some (.jstr "fr") ∧
      c'.filter (fun e => e.1 != "defaultLanguage")
        = (readConfig worldExtraKeys.config).filter (fun e => e.1 != "defaultLanguage") ∧
      ∀ k, k ≠ "defaultLanguage" →
        getKey c' k = getKey (readConfig worldExtraKeys.config) k :=
  C8_extra_keys_preserved true argsDFr worldExtraKeys "fr"
    (by decide) (by decide) (by decide) (by decide)

/-! ### Claim C9 -/

/-- C9: at most one request is issued per invocation (no retries), and any
issued request is exactly the documented body — `q` the resolved text,
`source` `"auto"`, `target` the effective target language, `format`
`"text"`, `alternatives` `3`, `api_key` `""` — posted to the fixed
endpoint with method POST and header `Content-Type: application/json`. -/
theorem C9_request_shape (m : Bool) (a : ParsedArgs) (w : World) :
    (tarjm m a w).requests.length ≤ 1 ∧
    ∀ r ∈ (tarjm m a w).requests,
      ∃ t, resolveText (jsOr a.f a.file) (joinSpace a.positional) w.fs = .ok t ∧
        r.q = t ∧ r.source = "auto" ∧
        r.target = resolveTarget (jsOr a.l a.language) (effectiveConfig a w) ∧
        r.format = "text" ∧ r.alternatives = 3 ∧ r.api_key = "" ∧
        r.contentType = "application/json" ∧ r.method = "POST" ∧
        r.url = "http://tarjm:5000/translate" := by
  rcases tarjm_requests_shape m a w with hnil | ⟨t, hres, hsh⟩
  · rw [hnil]
    exact ⟨by simp, by simp⟩
  · rw [hsh]
    refine ⟨by simp, ?_⟩
    intro r hr
    simp only [List.mem_singleton] at hr
    subst hr
    exact ⟨t, hres, rfl, rfl, rfl, rfl, rfl, rfl, rfl, rfl, rfl⟩

/-- C9 witness: the concrete `Hello World` run issues exactly the
documented request. -/
theorem C9_witness :
    (tarjm true argsHello worldHello).requests.length ≤ 1 ∧
    ∃ t, resolveText (jsOr argsHello.f argsHello.file)
        (joinSpace argsHello.positional) worldHello.fs = .ok t ∧
      (mkRequest "Hello World" (.jstr "en")).q = t ∧
      (mkRequest "Hello World" (.jstr "en")).source = "auto" ∧
      (mkRequest "Hello World" (.jstr "en")).target
        = resolveTarget (jsOr argsHello.l argsHello.language)
            (effectiveConfig argsHello worldHello) ∧
      (mkRequest "Hello World" (.jstr "en")).format = "text" ∧
      (mkRequest "Hello World" (.jstr "en")).alternatives = 3 ∧
      (mkRequest "Hello World" (.jstr "en")).api_key = "" ∧
      (mkRequest "Hello World" (.jstr "en")).contentType = "application/json" ∧
      (mkRequest "Hello World" (.jstr "en")).method = "POST" ∧
      (mkRequest "Hello World" (.jstr "en")).url = "http://tarjm:5000/translate" :=
  ⟨(C9_request_shape true argsHello worldHello).1,
   (C9_request_shape true argsHello worldHello).2
     (mkRequest "Hello World" (.jstr "en")) (by decide)⟩

/-! ### Claim C10 -/

/-- C10: a truthy default-language flag together with a truthy file path
naming a nonexistent file fails (exit 1 / raised `File not found`), no
request is issued, yet — the write having succeeded before text resolution
— the configuration file now carries the new default: the failure does not
roll the write back. -/
theorem C10_default_persisted_despite_failure (m : Bool) (a : ParsedArgs)
    (w : World) (dl p : String)
    (hh : a.h = false) (hhelp : a.help = false)
    (hd : jsOr a.d a.defaultFlag = some dl) (hdl : dl ≠ "")
    (hf : jsOr a.f a.file = some p) (hp : p ≠ "")
    (habs : w.fs p = .absent) (hwk : w.writeOk = true) :
    (tarjm m a w).outcome
      = (if m then .exit 1 else .raise ("File not found: " ++ p)) ∧
    (tarjm m a w).requests = [] ∧
    ∃ c', (tarjm m a w).finalConfig = .parsed c' ∧
      getKey c' "defaultLanguage" = some (.jstr dl) := by
  refine ⟨?_, ?_, ?_⟩
  · simp [tarjm, hh, hhelp, hf, truthyS_some hp, resolveText, habs]
  · simp [tarjm, hh, hhelp, hf, truthyS_some hp, resolveText, habs]
  · refine ⟨setKey (readConfig w.config) "defaultLanguage" (.jstr dl), ?_,
      getKey_setKey_self _ _ _⟩
    rw [tarjm_finalConfig_eq m a w hh hhelp]
    simp [effectiveConfig, hd, truthyS_some hdl, hwk]

/-- Concrete invocation `-d fr -f /nope`. -/
def argsDFrFNope : ParsedArgs := { d := some "fr", f := some "/nope" }

/-- C10 witness: `-d fr -f /nope` exits 1, issues no request, and leaves
`defaultLanguage = fr` persisted. -/
theorem C10_witness :
    (tarjm true argsDFrFNope worldPlain).outcome
      = (if true then .exit 1 else .raise ("File not found: " ++ "/nope")) ∧
    (tarjm true argsDFrFNope worldPlain).requests = [] ∧
    ∃ c', (tarjm true argsDFrFNope worldPlain).finalConfig = .parsed c' ∧
      getKey c' "defaultLanguage" = some (.jstr "fr") :=
  C10_default_persisted_despite_failure true argsDFrFNope worldPlain "fr" "/nope"
    (by decide) (by decide) (by decide) (by decide) (by decide) (by decide)
    (by decide) (by decide)

end Tarjm
